import Mathlib

/-!
Verification of the librespot `discovery` crate against its specification.

The crate root `src/discovery/src/lib.rs` provides the `Builder` / `Discovery`
glue: builder defaults and setters, launching the endpoint (binding the server,
registering the mDNS service record) and the `Stream` implementation that
delegates to the server.  The `server` module (key agreement, credential codec,
request handler, credential channel) is declared there but its source is not
part of this tree, so those components are modelled from the specification;
each such definition says so in its doc comment.

Bytes are modelled as lists of naturals, machine integers as naturals with
explicit `% 2 ^ w` where wrap-around matters, and fallible operations return
`Except`.
-/

namespace LibrespotDiscovery

/-- Byte strings (attacker-controlled wire data, keys, plaintext) are lists of
naturals; a well-formed byte is `< 256` but the untrusted inputs are not
assumed well-formed anywhere it is not needed. -/
abbrev Bytes := List Nat

/-- Big-endian interpretation of a byte string as a natural number. -/
def bytesToNat (bs : Bytes) : Nat :=
  bs.foldl (fun acc b => acc * 256 + b) 0

/-- Minimal big-endian byte representation of a natural number. -/
def natToBytes (n : Nat) : Bytes :=
  if _h : n = 0 then [] else natToBytes (n / 256) ++ [n % 256]
decreasing_by
  exact Nat.div_lt_self (Nat.pos_of_ne_zero _h) (by omega)

/-- Modelled from the spec (§3 KeyPair, §4.1): the fixed, protocol-defined
finite-field Diffie-Hellman prime modulus (a 768-bit prime; the exact constant
is not in `src/`, a standard 768-bit MODP prime stands in for it — no proof
depends on its particular value, only on its byte length). -/
def DH_PRIME : Nat :=
  0xFFFFFFFFFFFFFFFFC90FDAA22168C234C4C6628B80DC1CD129024E088A67CC74020BBEA63B139B22514A08798E3404DDEF9519B3CD3A431B302B0A6DF25F14374FE1356D6D51C245E485B576625E7EC6F44C42E9A63A3620FFFFFFFFFFFFFFFF

/-- Modelled from the spec (§3 KeyPair): the fixed protocol-defined generator
of the Diffie-Hellman group. -/
def DH_GENERATOR : Nat := 2

/-- Modelled from the spec (§4.1): the expected byte length of a transported
group element (96 bytes for a 768-bit group). -/
def DH_KEY_BYTES : Nat := 96

/-- The pairing-level error taxonomy of the spec (§7): `InvalidPeerKey`,
`ChecksumMismatch`, `MalformedCredential` are the three per-request errors. -/
inductive PairingError where
  | invalidPeerKey
  | checksumMismatch
  | malformedCredential
deriving DecidableEq, Repr

/-- Modelled from the spec (§4.1 Key Agreement Context): the public group
element corresponding to a private scalar. -/
def publicKeyOf (priv : Nat) : Nat :=
  DH_GENERATOR ^ priv % DH_PRIME

/-- Modelled from the spec (§4.1): `sharedSecret(peerPublicKey: bytes)` fails
with `InvalidPeerKey` if the supplied value is not a valid element of the
configured group (zero, or out of the expected byte-length range); otherwise it
raises the peer element to the own private scalar modulo the group prime. -/
def sharedSecret (priv : Nat) (peerKey : Bytes) : Except PairingError Nat :=
  if DH_KEY_BYTES < peerKey.length then .error .invalidPeerKey
  else if bytesToNat peerKey = 0 then .error .invalidPeerKey
  else .ok (bytesToNat peerKey ^ priv % DH_PRIME)

/-- Modelled from the spec (§3 CredentialRecord): the enumerated
authentication-type classifier of a credential record. -/
inductive AuthenticationType where
  | userPass
  | storedCredentials
  | authToken
deriving DecidableEq, Repr

/-- Wire code of an authentication type. -/
def AuthenticationType.toCode : AuthenticationType → Nat
  | .userPass => 0
  | .storedCredentials => 1
  | .authToken => 2

/-- Modelled from the spec (§4.2 step 5): an invalid type code is a structural
violation, so decoding a code is fallible. -/
def AuthenticationType.ofCode : Nat → Option AuthenticationType
  | 0 => some .userPass
  | 1 => some .storedCredentials
  | 2 => some .authToken
  | _ => none

/-- The terminal artifact of a successful handshake (spec §3): username,
opaque authentication data, authentication-type classifier.  The username is
kept as its wire bytes. -/
structure CredentialRecord where
  username : Bytes
  auth_data : Bytes
  auth_type : AuthenticationType
deriving DecidableEq, Repr

/-- Width of the keyed-hash output: a 20-byte digest (spec §4.2 step 2 gives a
20-byte tag as the fixed-length example). -/
def HASH_WIDTH : Nat := 2 ^ 160

/-- Modelled from the spec (§4.2 step 1): an HMAC-style keyed hash used both
for key derivation and for the payload checksum.  Deterministic and
executable; the claims depend only on it being a function of (key, data). -/
def keyedHash (key : Nat) (data : Bytes) : Nat :=
  data.foldl (fun acc b => (acc * 65599 + b + 1) % HASH_WIDTH)
    ((key + 1) * 2654435761 % HASH_WIDTH)

/-- The two independent fixed-length keys derived from a shared secret
(spec §3 DerivedKeys): a checksum key and an encryption key. -/
structure DerivedKeys where
  checksumKey : Nat
  encryptionKey : Nat
deriving DecidableEq, Repr

/-- Modelled from the spec (§4.2 step 1): fixed protocol constant seeding the
checksum-key derivation. -/
def CHECKSUM_LABEL : Bytes := [0]

/-- Modelled from the spec (§4.2 step 1): fixed protocol constant seeding the
encryption-key derivation. -/
def ENCRYPTION_LABEL : Bytes := [1]

/-- Modelled from the spec (§4.2 step 1): derive `{checksum key, encryption
key}` from a shared secret by keyed hashing seeded with fixed protocol
constants. -/
def deriveKeys (s : Nat) : DerivedKeys :=
  { checksumKey := keyedHash s CHECKSUM_LABEL
    encryptionKey := keyedHash s ENCRYPTION_LABEL }

/-- Modelled from the spec (§4.2 step 4): the keystream byte of a counter-mode
stream cipher at a given counter value. -/
def keystream (key ctr : Nat) : Nat :=
  keyedHash key (natToBytes ctr) % 256

/-- Modelled from the spec (§4.2 step 4): counter-mode stream cipher; XORs
each byte with the keystream byte at the running counter.  Encryption and
decryption are the same operation; the protocol fixes the initial counter at
zero. -/
def ctrCrypt (key ctr : Nat) : Bytes → Bytes
  | [] => []
  | b :: rest => (b ^^^ keystream key ctr) :: ctrCrypt key (ctr + 1) rest

/-- A client-submitted encrypted payload (spec §3 EncryptedPayload):
ciphertext plus the trailing fixed-length checksum tag, the tag kept as the
natural number its 20 bytes encode. -/
structure EncryptedPayload where
  ciphertext : Bytes
  tag : Nat
deriving DecidableEq, Repr

/-- Modelled from the spec (§4.2 step 5): serialize a credential record as
length-prefixed username, length-prefixed authentication data, then the
authentication-type code. -/
def serializeRecord (rec : CredentialRecord) : Bytes :=
  rec.username.length :: (rec.username ++
    rec.auth_data.length :: (rec.auth_data ++ [rec.auth_type.toCode]))

/-- Modelled from the spec (§4.2 step 5): parse a plaintext as a structured
record; any structural violation (truncated fields, invalid type code,
trailing garbage) is `MalformedCredential`. -/
def parseRecord : Bytes → Except PairingError CredentialRecord
  | [] => .error .malformedCredential
  | ulen :: rest =>
    if ulen ≤ rest.length then
      let uname := rest.take ulen
      match rest.drop ulen with
      | [] => .error .malformedCredential
      | dlen :: rest2 =>
        if dlen ≤ rest2.length then
          let adata := rest2.take dlen
          match rest2.drop dlen with
          | [code] =>
            match AuthenticationType.ofCode code with
            | some t => .ok { username := uname, auth_data := adata, auth_type := t }
            | none => .error .malformedCredential
          | _ => .error .malformedCredential
        else .error .malformedCredential
    else .error .malformedCredential

/-- Modelled from the spec (§4.2 `decode`): derive keys, verify the checksum
tag of the ciphertext, and only on a match decrypt (counter mode, all-zero
initial counter) and parse; a mismatch is `ChecksumMismatch` and nothing of
the plaintext is produced. -/
def decode (s : Nat) (payload : EncryptedPayload) : Except PairingError CredentialRecord :=
  if payload.tag = keyedHash (deriveKeys s).checksumKey payload.ciphertext then
    parseRecord (ctrCrypt (deriveKeys s).encryptionKey 0 payload.ciphertext)
  else .error .checksumMismatch

/-- Modelled from the spec (§8 round-trip law): the client-side encoder —
serialize the record, encrypt it under the encryption key derived from the
shared secret (counter mode, all-zero initial counter) and append the keyed
checksum of the ciphertext. -/
def encodeCredentials (s : Nat) (rec : CredentialRecord) : EncryptedPayload :=
  { ciphertext := ctrCrypt (deriveKeys s).encryptionKey 0 (serializeRecord rec)
    tag := keyedHash (deriveKeys s).checksumKey
      (ctrCrypt (deriveKeys s).encryptionKey 0 (serializeRecord rec)) }

/-- Modelled from the spec (§4.3): the full pairing pipeline for an `addUser`
request — key agreement first, credential decoding only afterwards. -/
def decodePairing (priv : Nat) (clientKey : Bytes) (blob : EncryptedPayload) :
    Except PairingError CredentialRecord :=
  match sharedSecret priv clientKey with
  | .error e => .error e
  | .ok s => decode s blob

/-- The wire response of an `addUser` request (spec §6): status, status
string, machine-readable error reason. -/
structure AddUserResponse where
  status : Nat
  statusString : String
  spotifyError : Nat
deriving DecidableEq, Repr

/-- The protocol success status code (spec §6: status `101`/`"OK"`/`0`). -/
def OK_STATUS : Nat := 101

/-- The success response of an `addUser` request. -/
def okResponse : AddUserResponse :=
  { status := OK_STATUS, statusString := "OK", spotifyError := 0 }

/-- Modelled from the spec (§6, §7): the machine-readable error reason for a
rejected pairing attempt. -/
def errorCode : PairingError → Nat
  | .invalidPeerKey => 1
  | .checksumMismatch => 2
  | .malformedCredential => 3

/-- Modelled from the spec (§4.3, §6): the protocol error response for a
rejected pairing attempt — a nonzero, non-success status code and the
machine-readable reason. -/
def errorResponse (e : PairingError) : AddUserResponse :=
  { status := 202, statusString := "ERROR-OK", spotifyError := errorCode e }

/-- An inbound pairing request (spec §4.3): peer public key and encrypted
payload. -/
structure AddUserRequest where
  clientKey : Bytes
  blob : EncryptedPayload
deriving DecidableEq, Repr

/-- Modelled from the spec (§4.3 Handshake Request Handler): handle one
pairing request; on success push the record (the `some` component) and answer
with the success status, on failure push nothing and answer with the protocol
error response. -/
def handleAddUser (priv : Nat) (clientKey : Bytes) (blob : EncryptedPayload) :
    AddUserResponse × Option CredentialRecord :=
  match decodePairing priv clientKey blob with
  | .ok rec => (okResponse, some rec)
  | .error e => (errorResponse e, none)

/-- Modelled from the spec (§4.3, §5): the endpoint handles every inbound
pairing request independently; the first component collects the written
responses in order, the second the sequence of records pushed into the
Credential Output Channel. -/
def runEndpoint (priv : Nat) (reqs : List AddUserRequest) :
    List AddUserResponse × List CredentialRecord :=
  (reqs.map fun r => (handleAddUser priv r.clientKey r.blob).1,
   reqs.filterMap fun r => (handleAddUser priv r.clientKey r.blob).2)

/-- Modelled from the spec (§4.4 Credential Output Channel): the single-slot
handoff state — at most one in-flight record plus a closed flag set when the
endpoint is released. -/
structure ChannelState where
  pending : Option CredentialRecord
  closed : Bool
deriving DecidableEq, Repr

/-- The outcome of one consumer pull (`poll_next`): an item, end of the
sequence, or nothing available yet (the pull stays pending). -/
inductive PollResult where
  | ready (rec : CredentialRecord)
  | endOfStream
  | pendingPoll
deriving DecidableEq, Repr

/-- Modelled from the spec (§4.4, §5): pull the next credential record — an
available item is yielded, an empty closed channel ends the sequence, an
empty open channel leaves the pull pending. -/
def ChannelState.pollNext (st : ChannelState) : PollResult × ChannelState :=
  match st.pending with
  | some rec => (.ready rec, { st with pending := none })
  | none => if st.closed then (.endOfStream, st) else (.pendingPoll, st)

/-- Modelled from the spec (§4.5, §5): releasing the endpoint closes the
channel. -/
def ChannelState.close (st : ChannelState) : ChannelState :=
  { st with closed := true }

/-- Embeds `DeviceType` of `librespot_core` (not under `src/`; modelled from
the spec §6: device-type classification, default a generic speaker icon, and
the `lib.rs` doc "Default is `Speaker`"). -/
inductive DeviceType where
  | unknown
  | computer
  | tablet
  | smartphone
  | speaker
  | tv
deriving DecidableEq, Repr

/-- The default device type (`DeviceType::default()` is `Speaker`). -/
def DeviceType.default : DeviceType := .speaker

/-- Embeds `server::Config` (`name`, `device_type`, `device_id`); the fields
assembled by the builder in `lib.rs`. -/
structure Config where
  name : String
  device_type : DeviceType
  device_id : String
deriving DecidableEq, Repr

/-- Embeds `Builder` of `lib.rs`: a server configuration plus the requested
listening port. -/
structure Builder where
  server_config : Config
  port : Nat
deriving DecidableEq, Repr

/-- Embeds `Builder::new` (`lib.rs` lines 44-53): default name `"Librespot"`,
default device type, the supplied device id, requested port `0`. -/
def Builder.new (device_id : String) : Builder :=
  { server_config :=
      { name := "Librespot"
        device_type := DeviceType.default
        device_id := device_id }
    port := 0 }

/-- Embeds `Builder::name` (`lib.rs` lines 56-59): sets the display name. -/
def Builder.name (b : Builder) (n : String) : Builder :=
  { b with server_config := { b.server_config with name := n } }

/-- Embeds `Builder::device_type` (`lib.rs` lines 62-65): sets the device
type. -/
def Builder.device_type (b : Builder) (t : DeviceType) : Builder :=
  { b with server_config := { b.server_config with device_type := t } }

/-- Embeds `Builder::port` (`lib.rs` lines 69-72): sets the requested port
(`0` means any port). -/
def Builder.setPort (b : Builder) (p : Nat) : Builder :=
  { b with port := p }

/-- The state of a running `DiscoveryServer`: the configuration and the
credential channel. -/
structure DiscoveryServerState where
  config : Config
  channel : ChannelState
deriving DecidableEq, Repr

/-- Modelled from the spec (§4.5 Endpoint Lifecycle): `DiscoveryServer::new`
binds a listener and writes the concrete bound port back through the `&mut`
port out-parameter (returned here as the second component).  `osPort` stands
for the port the operating system assigns when the requested port is `0`; a
real OS-assigned port is nonzero. -/
def DiscoveryServer.new (config : Config) (requestedPort osPort : Nat) :
    DiscoveryServerState × Nat :=
  ({ config := config, channel := { pending := none, closed := false } },
   if requestedPort = 0 then osPort else requestedPort)

/-- The record handed to the service-advertisement collaborator (spec §6):
service type, instance name, port and text records. -/
structure ServiceRecord where
  serviceType : String
  instanceName : String
  port : Nat
  txt : List String
deriving DecidableEq, Repr

/-- Embeds `Discovery`: the running server plus the registered mDNS service
record (`_svc`). -/
structure Discovery where
  server : DiscoveryServerState
  svc : ServiceRecord

/-- Embeds `Discovery::new` (`lib.rs` lines 89-104): create the server
(receiving the bound port through the out-parameter) and register the service
record `("_spotify-connect._tcp", name, port, ["VERSION=1.0", "CPath=/"])`.
The fallible OS interactions of the original (bind, mDNS responder spawn) are
modelled on their success path; `osPort` is the OS port choice. -/
def Discovery.new (builder : Builder) (osPort : Nat) : Discovery :=
  let name := builder.server_config.name
  let bound := DiscoveryServer.new builder.server_config builder.port osPort
  { server := bound.1
    svc :=
      { serviceType := "_spotify-connect._tcp"
        instanceName := name
        port := bound.2
        txt := ["VERSION=1.0", "CPath=/"] } }

/-- Embeds `<Discovery as Stream>::poll_next` (`lib.rs` lines 107-113): the
stream delegates to the server's `poll_next`. -/
def Discovery.pollNext (d : Discovery) : PollResult × Discovery :=
  let r := d.server.channel.pollNext
  (r.1, { d with server := { d.server with channel := r.2 } })

/-- Modelled from the spec (§4.5 `stop`): releasing the endpoint closes the
credential channel. -/
def Discovery.release (d : Discovery) : Discovery :=
  { d with server := { d.server with channel := d.server.channel.close } }

/-! ### Helper lemmas -/

theorem bytesToNat_append_byte (l : Bytes) (b : Nat) :
    bytesToNat (l ++ [b]) = bytesToNat l * 256 + b := by
  simp [bytesToNat, List.foldl_append]

theorem bytesToNat_natToBytes (n : Nat) : bytesToNat (natToBytes n) = n := by
  induction n using Nat.strong_induction_on with
  | _ n ih =>
    rw [natToBytes]
    split
    · simp [bytesToNat]; omega
    · rename_i h
      rw [bytesToNat_append_byte, ih (n / 256) (Nat.div_lt_self (Nat.pos_of_ne_zero h) (by omega))]
      omega

theorem natToBytes_length_le (k : Nat) : ∀ n : Nat, n < 256 ^ k → (natToBytes n).length ≤ k := by
  induction k with
  | zero =>
    intro n hn
    interval_cases n
    simp [natToBytes]
  | succ k ih =>
    intro n hn
    rw [natToBytes]
    split
    · simp
    · rename_i h
      have hdiv : n / 256 < 256 ^ k := by
        rw [Nat.div_lt_iff_lt_mul (by omega)]
        calc n < 256 ^ (k + 1) := hn
        _ = 256 ^ k * 256 := by rw [Nat.pow_succ]
      have := ih (n / 256) hdiv
      simp [List.length_append]
      omega

theorem dh_prime_lt : DH_PRIME < 256 ^ DH_KEY_BYTES := by decide

theorem bytesToNat_replicate_zero (n : Nat) : bytesToNat (List.replicate n 0) = 0 := by
  induction n with
  | zero => rfl
  | succ n ih =>
    have step : ∀ m acc, acc = 0 →
        List.foldl (fun acc b => acc * 256 + b) acc (List.replicate m 0) = 0 := by
      intro m
      induction m with
      | zero => intro acc h; simp [h]
      | succ m ihm => intro acc h; simp [List.replicate_succ, h]; exact ihm 0 rfl
    exact step (n + 1) 0 rfl

theorem AuthenticationType.ofCode_toCode (t : AuthenticationType) :
    AuthenticationType.ofCode t.toCode = some t := by
  cases t <;> rfl

theorem ctrCrypt_ctrCrypt (key : Nat) (data : Bytes) :
    ∀ ctr, ctrCrypt key ctr (ctrCrypt key ctr data) = data := by
  induction data with
  | nil => intro ctr; rfl
  | cons b rest ih =>
    intro ctr
    simp only [ctrCrypt, ih (ctr + 1)]
    congr 1
    rw [Nat.xor_assoc, Nat.xor_self, Nat.xor_zero]

theorem parseRecord_serializeRecord (rec : CredentialRecord) :
    parseRecord (serializeRecord rec) = .ok rec := by
  obtain ⟨u, d, t⟩ := rec
  simp only [serializeRecord, parseRecord]
  rw [if_pos (by simp)]
  rw [List.take_append_of_le_length (le_refl _), List.take_length,
    List.drop_append_of_le_length (le_refl _), List.drop_length]
  simp only [List.nil_append]
  rw [if_pos (by simp)]
  rw [List.take_append_of_le_length (le_refl _), List.take_length,
    List.drop_append_of_le_length (le_refl _), List.drop_length]
  simp [AuthenticationType.ofCode_toCode]

theorem decode_tag_eq (s : Nat) (ct : Bytes) :
    decode s ⟨ct, keyedHash (deriveKeys s).checksumKey ct⟩ =
      parseRecord (ctrCrypt (deriveKeys s).encryptionKey 0 ct) := by
  unfold decode
  exact if_pos rfl

theorem decode_encodeCredentials (s : Nat) (rec : CredentialRecord) :
    decode s (encodeCredentials s rec) = Except.ok rec := by
  rw [show encodeCredentials s rec =
      ⟨ctrCrypt (deriveKeys s).encryptionKey 0 (serializeRecord rec),
        keyedHash (deriveKeys s).checksumKey
          (ctrCrypt (deriveKeys s).encryptionKey 0 (serializeRecord rec))⟩ from rfl]
  rw [decode_tag_eq, ctrCrypt_ctrCrypt, parseRecord_serializeRecord]

/-! ### Claim theorems -/

/-- C1: for every valid peer keypair (private scalar `b` with nonzero public
element) and every plaintext credential record, the endpoint's key agreement
on the transported peer public key yields exactly the shared secret the peer
derives from the endpoint's public key, and encrypting the record under the
keys derived from that shared secret and submitting the payload to the
credential decoder returns the original record (encode-then-decode round
trip). -/
theorem credentials_roundtrip (a b : Nat) (rec : CredentialRecord)
    (hb : publicKeyOf b ≠ 0) :
    sharedSecret a (natToBytes (publicKeyOf b)) =
      Except.ok (publicKeyOf a ^ b % DH_PRIME) ∧
    decode (publicKeyOf a ^ b % DH_PRIME)
      (encodeCredentials (publicKeyOf a ^ b % DH_PRIME) rec) = Except.ok rec := by
  constructor
  · have hplt : publicKeyOf b < 256 ^ DH_KEY_BYTES := by
      have h1 : publicKeyOf b < DH_PRIME :=
        Nat.mod_lt _ (by unfold DH_PRIME; omega)
      exact lt_trans h1 dh_prime_lt
    have hlen : ¬ DH_KEY_BYTES < (natToBytes (publicKeyOf b)).length :=
      not_lt.mpr (natToBytes_length_le DH_KEY_BYTES (publicKeyOf b) hplt)
    have hval : bytesToNat (natToBytes (publicKeyOf b)) = publicKeyOf b :=
      bytesToNat_natToBytes _
    rw [sharedSecret, if_neg hlen, hval, if_neg hb]
    congr 1
    calc (DH_GENERATOR ^ b % DH_PRIME) ^ a % DH_PRIME
        = (DH_GENERATOR ^ b) ^ a % DH_PRIME := (Nat.pow_mod _ _ _).symm
      _ = (DH_GENERATOR ^ a) ^ b % DH_PRIME := by
          rw [← pow_mul, ← pow_mul, Nat.mul_comm]
      _ = (DH_GENERATOR ^ a % DH_PRIME) ^ b % DH_PRIME := Nat.pow_mod _ _ _
  · exact decode_encodeCredentials _ rec

/-- Witness for C1: private scalars `2` and `3` and the record
`{username := "alice", auth_data := [1, 2, 3], auth_type := userPass}`. -/
theorem credentials_roundtrip_witness :
    publicKeyOf 3 ≠ 0 ∧
    decode (publicKeyOf 2 ^ 3 % DH_PRIME)
      (encodeCredentials (publicKeyOf 2 ^ 3 % DH_PRIME)
        ⟨[97, 108, 105, 99, 101], [1, 2, 3], .userPass⟩) =
      Except.ok ⟨[97, 108, 105, 99, 101], [1, 2, 3], .userPass⟩ :=
  ⟨by decide,
   (credentials_roundtrip 2 3 ⟨[97, 108, 105, 99, 101], [1, 2, 3], .userPass⟩
      (by decide)).2⟩

/-- C2: a payload whose checksum tag differs from the keyed hash of the
ciphertext under the derived checksum key is rejected with
`ChecksumMismatch` — not `MalformedCredential`, no record and no plaintext —
and flipping any single bit of the tag of an otherwise-valid payload turns a
successful decode into `ChecksumMismatch`. -/
theorem decode_checksum_mismatch (s : Nat) (ct : Bytes) (tag : Nat) :
    (tag ≠ keyedHash (deriveKeys s).checksumKey ct →
      decode s ⟨ct, tag⟩ = Except.error PairingError.checksumMismatch) ∧
    (∀ (i : Nat) (rec : CredentialRecord), decode s ⟨ct, tag⟩ = Except.ok rec →
      decode s ⟨ct, tag ^^^ 2 ^ i⟩ = Except.error PairingError.checksumMismatch) := by
  constructor
  · intro h
    simp [decode, h]
  · intro i rec hok
    have htag : tag = keyedHash (deriveKeys s).checksumKey ct := by
      by_contra hne
      simp [decode, hne] at hok
    have hflip : tag ^^^ 2 ^ i ≠ keyedHash (deriveKeys s).checksumKey ct := by
      intro heq
      rw [htag] at heq
      have h3 : keyedHash (deriveKeys s).checksumKey ct ^^^
          (keyedHash (deriveKeys s).checksumKey ct ^^^ 2 ^ i) =
          keyedHash (deriveKeys s).checksumKey ct ^^^
            keyedHash (deriveKeys s).checksumKey ct := by rw [heq]
      rw [← Nat.xor_assoc, Nat.xor_self, Nat.zero_xor] at h3
      have : 0 < (2 : Nat) ^ i := pow_pos (by omega) i
      omega
    simp [decode, hflip]

/-- Witness for C2: a tag of `0` (never the keyed hash here, which is
nonzero) is rejected, and flipping bit `5` of the valid tag of a payload that
decodes successfully is rejected. -/
theorem decode_checksum_mismatch_witness :
    decode 7 ⟨[1, 2, 3], 0⟩ = Except.error PairingError.checksumMismatch ∧
    decode (publicKeyOf 2 ^ 3 % DH_PRIME)
      ⟨(encodeCredentials (publicKeyOf 2 ^ 3 % DH_PRIME)
          ⟨[98], [9], .authToken⟩).ciphertext,
        (encodeCredentials (publicKeyOf 2 ^ 3 % DH_PRIME)
          ⟨[98], [9], .authToken⟩).tag ^^^ 2 ^ 5⟩ =
      Except.error PairingError.checksumMismatch :=
  ⟨(decode_checksum_mismatch 7 [1, 2, 3] 0).1 (by decide),
   (decode_checksum_mismatch (publicKeyOf 2 ^ 3 % DH_PRIME)
      (encodeCredentials (publicKeyOf 2 ^ 3 % DH_PRIME)
        ⟨[98], [9], .authToken⟩).ciphertext
      (encodeCredentials (publicKeyOf 2 ^ 3 % DH_PRIME)
        ⟨[98], [9], .authToken⟩).tag).2 5 ⟨[98], [9], .authToken⟩
      (decode_encodeCredentials (publicKeyOf 2 ^ 3 % DH_PRIME)
        ⟨[98], [9], .authToken⟩)⟩

/-- C3: a peer public key that is not a valid element of the group — zero
(in particular any all-zero byte string) or longer than the expected byte
length — makes `sharedSecret` fail with `InvalidPeerKey`, the handler reject
the request, and the outcome is independent of the submitted payload, so the
rejection happens before any credential decoding. -/
theorem invalid_peer_key_rejected (priv n : Nat) (key : Bytes)
    (payload payload' : EncryptedPayload)
    (h : bytesToNat key = 0 ∨ DH_KEY_BYTES < key.length) :
    sharedSecret priv key = Except.error PairingError.invalidPeerKey ∧
    sharedSecret priv (List.replicate n 0) = Except.error PairingError.invalidPeerKey ∧
    handleAddUser priv key payload = (errorResponse .invalidPeerKey, none) ∧
    handleAddUser priv key payload = handleAddUser priv key payload' := by
  have h1 : sharedSecret priv key = Except.error PairingError.invalidPeerKey := by
    by_cases hlen : DH_KEY_BYTES < key.length
    · simp [sharedSecret, hlen]
    · rcases h with h | h
      · simp [sharedSecret, hlen, h]
      · exact absurd h hlen
  have h2 : sharedSecret priv (List.replicate n 0) =
      Except.error PairingError.invalidPeerKey := by
    simp [sharedSecret, bytesToNat_replicate_zero]
  refine ⟨h1, h2, ?_, ?_⟩
  · simp [handleAddUser, decodePairing, h1]
  · simp [handleAddUser, decodePairing, h1]

/-- Witness for C3: the all-zero two-byte peer key is rejected and the
handler response does not depend on the payload. -/
theorem invalid_peer_key_rejected_witness :
    sharedSecret 5 [0, 0] = Except.error PairingError.invalidPeerKey ∧
    handleAddUser 5 [0, 0] ⟨[1, 2], 3⟩ = (errorResponse .invalidPeerKey, none) :=
  ⟨(invalid_peer_key_rejected 5 3 [0, 0] ⟨[1, 2], 3⟩ ⟨[], 0⟩ (Or.inl (by decide))).1,
   (invalid_peer_key_rejected 5 3 [0, 0] ⟨[1, 2], 3⟩ ⟨[], 0⟩ (Or.inl (by decide))).2.2.1⟩

/-- C4: a pairing request whose handling fails with one of `InvalidPeerKey`,
`ChecksumMismatch`, `MalformedCredential` is answered with the protocol error
response (a status that is neither the success code nor zero), pushes nothing
into the credential channel, and the endpoint keeps handling every other
in-flight request exactly as before: the response and credential sequences of
the surrounding requests are unchanged. -/
theorem pairing_error_isolated (priv : Nat) (pre post : List AddUserRequest)
    (r : AddUserRequest) (e : PairingError)
    (h : decodePairing priv r.clientKey r.blob = Except.error e) :
    handleAddUser priv r.clientKey r.blob = (errorResponse e, none) ∧
    (errorResponse e).status ≠ OK_STATUS ∧
    (errorResponse e).status ≠ 0 ∧
    runEndpoint priv (pre ++ r :: post) =
      ((runEndpoint priv pre).1 ++ errorResponse e :: (runEndpoint priv post).1,
       (runEndpoint priv pre).2 ++ (runEndpoint priv post).2) := by
  have h1 : handleAddUser priv r.clientKey r.blob = (errorResponse e, none) := by
    simp [handleAddUser, h]
  refine ⟨h1, by simp [errorResponse, OK_STATUS], by simp [errorResponse], ?_⟩
  simp [runEndpoint, List.map_append, List.filterMap_append, h1]

/-- Witness for C4: a request with an all-zero peer key, surrounded by two
other requests, is rejected and contributes nothing to the credential
sequence while the neighbours are processed. -/
theorem pairing_error_isolated_witness :
    runEndpoint 5 ([⟨[1], ⟨[], 0⟩⟩] ++ ⟨[0, 0], ⟨[5], 7⟩⟩ :: [⟨[2], ⟨[9], 1⟩⟩]) =
      ((runEndpoint 5 [⟨[1], ⟨[], 0⟩⟩]).1 ++
        errorResponse PairingError.invalidPeerKey ::
          (runEndpoint 5 [⟨[2], ⟨[9], 1⟩⟩]).1,
       (runEndpoint 5 [⟨[1], ⟨[], 0⟩⟩]).2 ++ (runEndpoint 5 [⟨[2], ⟨[9], 1⟩⟩]).2) :=
  (pairing_error_isolated 5 [⟨[1], ⟨[], 0⟩⟩] [⟨[2], ⟨[9], 1⟩⟩]
    ⟨[0, 0], ⟨[5], 7⟩⟩ PairingError.invalidPeerKey rfl).2.2.2

/-- C5: decoding is a deterministic function of its inputs — two runs of
`decode` on identical `(sharedSecret, payload)` pairs return identical
results, the same `CredentialRecord` on success or the same error on
failure. -/
theorem decode_deterministic (s₁ s₂ : Nat) (p₁ p₂ : EncryptedPayload)
    (hs : s₁ = s₂) (hp : p₁ = p₂) : decode s₁ p₁ = decode s₂ p₂ := by
  rw [hs, hp]

/-- Witness for C5 at a concrete shared secret and payload. -/
theorem decode_deterministic_witness :
    decode 7 ⟨[1, 2, 3], 4⟩ = decode 7 ⟨[1, 2, 3], 4⟩ :=
  decode_deterministic 7 7 ⟨[1, 2, 3], 4⟩ ⟨[1, 2, 3], 4⟩ rfl rfl

/-- C6: a successful launch hands the concrete bound port back through the
mutable port out-parameter and advertises exactly that port; a requested port
of `0` binds the (nonzero) OS-assigned port instead of `0`, and a nonzero
requested port is bound as requested. -/
theorem launch_returns_bound_port (b : Builder) (osPort : Nat) (hos : osPort ≠ 0) :
    (Discovery.new b osPort).svc.port = (DiscoveryServer.new b.server_config b.port osPort).2 ∧
    (DiscoveryServer.new b.server_config b.port osPort).2 =
      (if b.port = 0 then osPort else b.port) ∧
    (b.port = 0 → (DiscoveryServer.new b.server_config b.port osPort).2 ≠ 0) ∧
    (b.port ≠ 0 → (DiscoveryServer.new b.server_config b.port osPort).2 = b.port) := by
  refine ⟨rfl, rfl, ?_, ?_⟩
  · intro h0
    simp [DiscoveryServer.new, h0, hos]
  · intro h0
    simp [DiscoveryServer.new, h0]

/-- Witness for C6: requested port `0` with device id `"dev-123"` and an
OS-assigned port `37401` binds and advertises `37401`. -/
theorem launch_returns_bound_port_witness :
    (37401 : Nat) ≠ 0 ∧
      (DiscoveryServer.new (Builder.new "dev-123").server_config
        (Builder.new "dev-123").port 37401).2 ≠ 0 :=
  ⟨by decide,
   (launch_returns_bound_port (Builder.new "dev-123") 37401 (by decide)).2.2.1 rfl⟩

/-- C7: the record handed to the service-advertisement collaborator is the
constant service type `"_spotify-connect._tcp"`, the configured display name,
the bound port, and the text records `"VERSION=1.0"` and `"CPath=/"`. -/
theorem advertisement_record (b : Builder) (osPort : Nat) :
    (Discovery.new b osPort).svc.serviceType = "_spotify-connect._tcp" ∧
    (Discovery.new b osPort).svc.instanceName = b.server_config.name ∧
    (Discovery.new b osPort).svc.port =
      (DiscoveryServer.new b.server_config b.port osPort).2 ∧
    (Discovery.new b osPort).svc.txt = ["VERSION=1.0", "CPath=/"] :=
  ⟨rfl, rfl, rfl, rfl⟩

/-- C8: `Builder::new(device_id)` defaults — display name `"Librespot"`,
device type `Speaker` (the `DeviceType` default), the supplied device id
unchanged, requested port `0`. -/
theorem builder_new_defaults (device_id : String) :
    (Builder.new device_id).server_config.name = "Librespot" ∧
    (Builder.new device_id).server_config.device_type = DeviceType.default ∧
    DeviceType.default = DeviceType.speaker ∧
    (Builder.new device_id).server_config.device_id = device_id ∧
    (Builder.new device_id).port = 0 :=
  ⟨rfl, rfl, rfl, rfl, rfl⟩

/-- C10: each builder setter modifies only its own field — `name` only the
display name, `device_type` only the device type, `port` only the requested
port — leaving the device identifier and every other field unchanged. -/
theorem builder_setters_frame (b : Builder) (n : String) (t : DeviceType) (p : Nat) :
    ((b.name n).server_config.name = n ∧
      (b.name n).server_config.device_type = b.server_config.device_type ∧
      (b.name n).server_config.device_id = b.server_config.device_id ∧
      (b.name n).port = b.port) ∧
    ((b.device_type t).server_config.device_type = t ∧
      (b.device_type t).server_config.name = b.server_config.name ∧
      (b.device_type t).server_config.device_id = b.server_config.device_id ∧
      (b.device_type t).port = b.port) ∧
    ((b.setPort p).port = p ∧
      (b.setPort p).server_config = b.server_config) :=
  ⟨⟨rfl, rfl, rfl, rfl⟩, ⟨rfl, rfl, rfl, rfl⟩, ⟨rfl, rfl⟩⟩

/-- C9: the credential stream never ends while the endpoint is running — a
pull can end the sequence only once the channel has been closed by releasing
the endpoint — and a pull performed after release does not stay pending
forever: it yields an item still in flight or observes end-of-sequence. -/
theorem stream_end_semantics (d : Discovery) :
    (d.pollNext.1 = PollResult.endOfStream → d.server.channel.closed = true) ∧
    (d.server.channel.closed = false → d.pollNext.1 ≠ PollResult.endOfStream) ∧
    (d.release.pollNext.1 ≠ PollResult.pendingPoll) := by
  refine ⟨?_, ?_, ?_⟩
  · intro h
    by_contra hc
    have hc' : d.server.channel.closed = false := by
      cases hcl : d.server.channel.closed
      · rfl
      · exact absurd hcl hc
    cases hp : d.server.channel.pending with
    | some rec => simp [Discovery.pollNext, ChannelState.pollNext, hp] at h
    | none => simp [Discovery.pollNext, ChannelState.pollNext, hp, hc'] at h
  · intro hc h
    cases hp : d.server.channel.pending with
    | some rec => simp [Discovery.pollNext, ChannelState.pollNext, hp] at h
    | none => simp [Discovery.pollNext, ChannelState.pollNext, hp, hc] at h
  · cases hp : d.server.channel.pending with
    | some rec =>
      simp [Discovery.pollNext, Discovery.release, ChannelState.pollNext,
        ChannelState.close, hp]
    | none =>
      simp [Discovery.pollNext, Discovery.release, ChannelState.pollNext,
        ChannelState.close, hp]

/-- Witness for C9 at a freshly launched endpoint: an open empty channel does
not report end-of-sequence, and a pull after release is not left pending. -/
theorem stream_end_semantics_witness :
    ((Discovery.new (Builder.new "dev-123") 37401).pollNext.1 ≠ PollResult.endOfStream) ∧
    ((Discovery.new (Builder.new "dev-123") 37401).release.pollNext.1 ≠
      PollResult.pendingPoll) :=
  ⟨(stream_end_semantics (Discovery.new (Builder.new "dev-123") 37401)).2.1 rfl,
   (stream_end_semantics (Discovery.new (Builder.new "dev-123") 37401)).2.2⟩

end LibrespotDiscovery
